import Mathlib

/-!
Pairing route of Bhanuka_MD_Web (`pair.js`).

A shallow embedding of the Express route `router.get("/")` of `pair.js`, its helper
functions and the two event handlers it registers on the protocol socket.

* JavaScript strings are Lean strings; the two `String.prototype.replace` calls of the
  source are modelled on the list of characters.
* Every external collaborator (Baileys, the Mega uploader, `fs/promises`, `pino`,
  `child_process`) is an effect recorded in a trace; whether a call resolves or throws
  is supplied by an outcome record, so that the handlers are ordinary functions.
* `try`/`catch`/`finally` are combinators of a state-and-exception monad `Js`.
-/

namespace Pair

/-! ## Values and effects -/

/-- The JavaScript values that can reach the handler as `req.query.number`
or as `lastDisconnect?.error?.output?.statusCode`. -/
inductive JsValue where
  | undefined
  | str (s : String)
  | num (n : Int)
  | arr (xs : List String)
  | obj (fields : List (String × String))
  deriving DecidableEq, Repr

/-- The two JSON bodies the route writes: `{ error }` and `{ code }`. -/
inductive Body where
  | error (msg : String)
  | code (code : String)
  deriving DecidableEq, Repr

/-- Message payloads passed to `socket.sendMessage`. -/
inductive Content where
  | image (url : String) (caption : String)
  | text (text : String)
  deriving DecidableEq, Repr

/-- Levels of the `pino` logger used by the route. -/
inductive Level where
  | warn
  | error
  deriving DecidableEq, Repr

/-- Calls to the outside world, in the order the code performs them. -/
inductive Action where
  | respond (status : Nat) (body : Body)
  | useMultiFileAuthState (dir : String)
  | createSocket
  | delay (ms : Nat)
  | requestPairingCode (number : String)
  | onCredsUpdate
  | onConnectionUpdate
  | saveCreds
  /-- Evaluation of the expression `jidNormalizedUser(socket.user.id)`, whether it throws
  at `socket.user.id` or in the call. -/
  | jidNormalizedUser
  | access (path : String)
  | upload (path : String) (name : String)
  | sendMessage (jid : String) (content : Content)
  | assignStopReconnect (value : Bool)
  | removePath (path : String)
  | log (level : Level) (msg : String)
  | exec (cmd : String)
  deriving DecidableEq, Repr

/-- The closure state of one request together with the part of the world it touches. -/
structure Session where
  /-- Value of `res.headersSent`. -/
  headersSent : Bool
  /-- The closure variable `stopReconnect`. -/
  stopReconnect : Bool
  /-- Whether `saveCreds` is subscribed to `creds.update`. -/
  credsHandler : Bool
  /-- Whether the connection handler is subscribed to `connection.update`. -/
  connHandler : Bool
  /-- Whether the directory `SESSION_DIR` exists on disk. -/
  sessionDir : Bool
  /-- The effects performed so far. -/
  trace : List Action
  deriving DecidableEq, Repr

/-- The state in which the route receives a request: a fresh response object,
`stopReconnect` not yet declared (it starts `false`), nothing subscribed. -/
def Session.fresh (dirExists : Bool) : Session :=
  { headersSent := false, stopReconnect := false, credsHandler := false,
    connHandler := false, sessionDir := dirExists, trace := [] }

/-! ## The monad of handler bodies -/

/-- Completion of a JavaScript statement: normal, or abrupt with a thrown error. -/
inductive Completion (α : Type) where
  | ok (value : α)
  | thrown (err : String)
  deriving DecidableEq, Repr

/-- Handler bodies: state passing, with the state kept when an error is thrown. -/
def Js (α : Type) : Type := Session → Completion α × Session

/-- Normal completion with a value. -/
def Js.pure {α : Type} (a : α) : Js α := fun s => (Completion.ok a, s)

/-- Sequencing; a thrown error skips the continuation. -/
def Js.bind {α β : Type} (m : Js α) (f : α → Js β) : Js β := fun s =>
  match m s with
  | (Completion.ok a, s1) => f a s1
  | (Completion.thrown e, s1) => (Completion.thrown e, s1)

instance : Monad Js where
  pure := Js.pure
  bind := Js.bind

/-- The `throw` statement. -/
def throwJs {α : Type} (err : String) : Js α := fun s => (Completion.thrown err, s)

/-- The statement `try { body } catch (err) { handler }`. -/
def tryCatch (body : Js Unit) (handler : String → Js Unit) : Js Unit := fun s =>
  match body s with
  | (Completion.ok a, s1) => (Completion.ok a, s1)
  | (Completion.thrown e, s1) => handler e s1

/-- The statement `try { body } finally { fin }`: `fin` always runs, and the completion
of `body` is kept unless `fin` itself throws. -/
def tryFinally (body : Js Unit) (fin : Js Unit) : Js Unit := fun s =>
  match body s with
  | (c, s1) =>
    match fin s1 with
    | (Completion.ok _, s2) => (c, s2)
    | (Completion.thrown e, s2) => (Completion.thrown e, s2)

/-- Record one effect. -/
def emit (a : Action) : Js Unit := fun s =>
  (Completion.ok (), { s with trace := s.trace ++ [a] })

/-- An awaited external call: recorded, then resolved with its value or rejected. -/
def call {α : Type} (a : Action) (outcome : Option α) (err : String) : Js α := fun s =>
  match outcome with
  | some v => (Completion.ok v, { s with trace := s.trace ++ [a] })
  | none => (Completion.thrown err, { s with trace := s.trace ++ [a] })

/-- Read the session state. -/
def getSession : Js Session := fun s => (Completion.ok s, s)

/-- Outcome of an external call that returns nothing. -/
def unitOutcome (resolves : Bool) : Option Unit := if resolves then some () else none

/-! ## Configuration -/

/-- The part of `process.env` the route reads, and the resolved session path. -/
structure ProcessEnv where
  /-- Value of `path.resolve("./session")`. -/
  sessionDir : String
  BOT_NAME : Option String
  BRAND_IMAGE_URL : Option String
  PM2_APP_NAME : Option String
  PM2_APP_NAME_FALLBACK : Option String
  deriving DecidableEq, Repr

/-- JavaScript truthiness of an environment variable: set and not empty. -/
def truthy : Option String → Bool
  | some s => s != ""
  | none => false

/-- The operator `a || b` on an environment variable and a default. -/
def orDefault (v : Option String) (dflt : String) : String :=
  match v with
  | some s => if s != "" then s else dflt
  | none => dflt

/-- Constant `SESSION_DIR`. -/
def SESSION_DIR (env : ProcessEnv) : String := env.sessionDir

/-- Constant `BOT_NAME`. -/
def BOT_NAME (env : ProcessEnv) : String := orDefault env.BOT_NAME "BHANUKA MD"

/-- Constant `BRAND_IMAGE_URL`. -/
def BRAND_IMAGE_URL (env : ProcessEnv) : String :=
  orDefault env.BRAND_IMAGE_URL "https://github.com/Bhanukamd/Bot-helper"

/-! ## Utilities -/

/-- The character class `[^0-9]`. -/
def notDigit (c : Char) : Bool := !(decide ('0' ≤ c) && decide (c ≤ '9'))

/-- The method `replace` with a global one-character class pattern: every matching
character is replaced by `rep`, the others are kept. -/
def replaceAllClass (cls : Char → Bool) (rep : List Char) : List Char → List Char
  | [] => []
  | c :: cs =>
    if cls c then rep ++ replaceAllClass cls rep cs else c :: replaceAllClass cls rep cs

/-- The method `replace` with a string pattern: only the first occurrence of `pat`,
scanning from the left, is replaced by `rep`. -/
def replaceFirst (pat rep : List Char) : List Char → List Char
  | [] => if pat.isEmpty then rep else []
  | c :: cs =>
    if pat.isPrefixOf (c :: cs) then rep ++ (c :: cs).drop pat.length
    else c :: replaceFirst pat rep cs

/-- Function `sanitizeNumber`. -/
def sanitizeNumber (input : JsValue) : String :=
  match input with
  | JsValue.str s => String.mk (replaceAllClass notDigit [] s.data)
  | _ => ""

/-- The literal that `uploadSessionToMega` removes from the locator. -/
def megaFileUrl : String := "https://mega.nz/file/"

/-- The expression `megaUrl.replace("https://mega.nz/file/", "")`. -/
def stripMegaUrl (megaUrl : String) : String :=
  String.mk (replaceFirst megaFileUrl.data [] megaUrl.data)

/-- The awaited call `fsp.rm(targetPath, { recursive: true, force: true })` on the
session directory: when it resolves the directory is gone, when it rejects it is left. -/
def rm (targetPath : String) (rmOk : Bool) : Js Unit := fun s =>
  if rmOk then
    (Completion.ok (),
      { s with sessionDir := false, trace := s.trace ++ [Action.removePath targetPath] })
  else
    (Completion.thrown "rm failed",
      { s with trace := s.trace ++ [Action.removePath targetPath] })

/-- Function `removePath`: the removal is attempted, a failure is logged and swallowed. -/
def removePath (targetPath : String) (rmOk : Bool) : Js Unit :=
  tryCatch (rm targetPath rmOk)
    (fun _ => emit (Action.log Level.warn "Failed to remove path"))

/-- Outcomes of the external calls made while an open connection is handled. -/
structure DeliveryOutcome where
  /-- Result of `jidNormalizedUser(socket.user.id)`, `none` when evaluating it throws. -/
  userJid : Option String
  /-- Whether `fsp.access(credsPath)` resolves. -/
  credsPresent : Bool
  /-- Result of `randomMegaId()`. -/
  megaId : String
  /-- Link the uploader resolves with, `none` when it rejects. -/
  megaUrl : Option String
  /-- Whether the first `sendMessage` resolves. -/
  sendImage : Bool
  /-- Whether the second `sendMessage` resolves. -/
  sendSession : Bool
  /-- Whether the third `sendMessage` resolves. -/
  sendWarning : Bool
  /-- Whether `fsp.rm` resolves. -/
  rmOk : Bool
  deriving DecidableEq, Repr

/-- Function `uploadSessionToMega`. -/
def uploadSessionToMega (env : ProcessEnv) (o : DeliveryOutcome) : Js String := do
  let credsPath := SESSION_DIR env ++ "/creds.json"
  tryCatch (call (Action.access credsPath) (unitOutcome o.credsPresent) "ENOENT")
    (fun _ => throwJs "creds.json not found after pairing")
  let megaUrl ← call (Action.upload credsPath (o.megaId ++ ".json")) o.megaUrl "upload failed"
  pure (stripMegaUrl megaUrl)

/-- The template literal bound to `caption`. -/
def captionOf (env : ProcessEnv) (stringSession : String) : String :=
  "*" ++ BOT_NAME env ++ "*\n\nðŸ‘‰ " ++ stringSession ++
    " ðŸ‘ˆ\n\n*This is your Session ID*\n\n> " ++ BOT_NAME env

/-- The template literal bound to `warning`. -/
def warningText : String :=
  "ðŸ›‘ *Do not share this code with anyone* ðŸ›‘"

/-- One `connection.update` event, reduced to the two values the handler reads. -/
structure ConnectionUpdate where
  /-- Field `connection`, absent in partial updates. -/
  connection : Option String
  /-- Value of `lastDisconnect?.error?.output?.statusCode`. -/
  statusCode : JsValue
  deriving DecidableEq, Repr

/-- The `try` block of the open branch: grace delay, upload, three sends. -/
def deliver (env : ProcessEnv) (o : DeliveryOutcome) : Js Unit := do
  emit (Action.delay 5000)
  let userJid ← call Action.jidNormalizedUser o.userJid "jid failed"
  let stringSession ← uploadSessionToMega env o
  let caption := captionOf env stringSession
  let warning := warningText
  call (Action.sendMessage userJid (Content.image (BRAND_IMAGE_URL env) caption))
    (unitOutcome o.sendImage) "send failed"
  call (Action.sendMessage userJid (Content.text stringSession))
    (unitOutcome o.sendSession) "send failed"
  call (Action.sendMessage userJid (Content.text warning))
    (unitOutcome o.sendWarning) "send failed"

/-- The `catch` block of the open branch. -/
def deliveryFailed (env : ProcessEnv) : Js Unit := do
  emit (Action.log Level.error "Failed to send session to user; attempting pm2 restart")
  if truthy env.PM2_APP_NAME then
    emit (Action.exec ("pm2 restart " ++ env.PM2_APP_NAME.getD ""))

/-- The assignment `stopReconnect = value`. -/
def assignStopReconnect (value : Bool) : Js Unit := fun s =>
  (Completion.ok (),
    { s with stopReconnect := value, trace := s.trace ++ [Action.assignStopReconnect value] })

/-- The `finally` block of the open branch. -/
def cleanup (env : ProcessEnv) (o : DeliveryOutcome) : Js Unit := do
  assignStopReconnect true
  emit (Action.delay 100)
  removePath (SESSION_DIR env) o.rmOk

/-- The listener registered on `connection.update`. -/
def connectionUpdate (env : ProcessEnv) (u : ConnectionUpdate) (o : DeliveryOutcome) :
    Js Unit := do
  if u.connection = some "open" then
    tryFinally (tryCatch (deliver env o) (fun _ => deliveryFailed env)) (cleanup env o)
  let s ← getSession
  if u.connection = some "close" && !s.stopReconnect then
    let statusCode := u.statusCode
    if statusCode ≠ JsValue.num 401 then
      emit (Action.log Level.warn "Connection closed; retrying in 10s")
      emit (Action.delay 10000)
    else
      emit (Action.log Level.error "Unauthorized (401) during connection; not retrying")

/-- Outcomes of the external calls made while the request itself is handled. -/
structure SetupOutcome where
  /-- Whether `useMultiFileAuthState` resolves. -/
  authState : Bool
  /-- Whether `createSocket` resolves. -/
  socket : Bool
  /-- Truthiness of `socket.authState?.creds?.registered`. -/
  registered : Bool
  /-- Code `requestPairingCode` resolves with, `none` when it rejects. -/
  pairingCode : Option String
  /-- Whether `fsp.rm` resolves. -/
  rmOk : Bool
  deriving DecidableEq, Repr

/-- The awaited call `useMultiFileAuthState(SESSION_DIR)`; on success the folder exists. -/
def useMultiFileAuthState (dir : String) (resolves : Bool) : Js Unit := fun s =>
  if resolves then
    (Completion.ok (), { s with trace := s.trace ++ [Action.useMultiFileAuthState dir],
                                sessionDir := true })
  else
    (Completion.thrown "auth state failed",
      { s with trace := s.trace ++ [Action.useMultiFileAuthState dir] })

/-- The call `res.status(status).json(body)`. -/
def respond (status : Nat) (body : Body) : Js Unit := fun s =>
  (Completion.ok (),
    { s with headersSent := true, trace := s.trace ++ [Action.respond status body] })

/-- The call `socket.ev.on("creds.update", saveCreds)`. -/
def subscribeCreds : Js Unit := fun s =>
  (Completion.ok (), { s with credsHandler := true, trace := s.trace ++ [Action.onCredsUpdate] })

/-- The call `socket.ev.on("connection.update", ...)`. -/
def subscribeConnection : Js Unit := fun s =>
  (Completion.ok (),
    { s with connHandler := true, trace := s.trace ++ [Action.onConnectionUpdate] })

/-- The `try` block of the route. -/
def setup (env : ProcessEnv) (number : String) (o : SetupOutcome) : Js Unit := do
  useMultiFileAuthState (SESSION_DIR env) o.authState
  call Action.createSocket (unitOutcome o.socket) "socket failed"
  if !o.registered then
    emit (Action.delay 1500)
    let code ← call (Action.requestPairingCode number) o.pairingCode "pairing failed"
    let s ← getSession
    if !s.headersSent then
      respond 200 (Body.code code)
  subscribeCreds
  subscribeConnection

/-- The `catch` block of the route. -/
def setupFailed (env : ProcessEnv) (o : SetupOutcome) : Js Unit := do
  emit (Action.log Level.error "Pair route error")
  if truthy env.PM2_APP_NAME_FALLBACK then
    emit (Action.exec ("pm2 restart " ++ env.PM2_APP_NAME_FALLBACK.getD ""))
  removePath (SESSION_DIR env) o.rmOk
  let s ← getSession
  if !s.headersSent then
    respond 503 (Body.error "Service Unavailable")

/-- The handler of `router.get("/")`, applied to `req.query.number`. -/
def getRoute (env : ProcessEnv) (raw : JsValue) (o : SetupOutcome) : Js Unit := do
  let number := sanitizeNumber raw
  if number = "" then
    respond 400 (Body.error "Query param \x27number\x27 is required (digits only).")
  else
    tryCatch (setup env number o) (fun _ => setupFailed env o)

/-! ## Sessions -/

/-- Events the socket emits after the request has been handled. -/
inductive Event where
  | credsUpdate
  | connection (u : ConnectionUpdate) (o : DeliveryOutcome)
  deriving DecidableEq, Repr

/-- What the socket's emitter does with an event: it calls the subscribed listener. -/
def dispatch (env : ProcessEnv) (e : Event) : Js Unit := do
  let s ← getSession
  match e with
  | Event.credsUpdate => if s.credsHandler then emit Action.saveCreds
  | Event.connection u o => if s.connHandler then connectionUpdate env u o

/-- Run one handler to completion from state `s`; the effects it performed are
returned on their own. -/
def runHandler (h : Js Unit) (s : Session) : List Action × Session :=
  let r := h { s with trace := [] }
  (r.2.trace, r.2)

/-- Handle the events in order, returning for each the effects of its listener. Each
listener is run to completion before the next event; the interleaving of a listener
suspended at an `await` with a later event is not represented. -/
def runEvents (env : ProcessEnv) : Session → List Event → List (Option Event × List Action)
  | _, [] => []
  | s, e :: es =>
    let r := runHandler (dispatch env e) s
    (some e, r.1) :: runEvents env r.2 es

/-- A whole session: the request (tagged `none`), then each event with the effects of
its listener. -/
def runSession (env : ProcessEnv) (dirExists : Bool) (raw : JsValue) (o : SetupOutcome)
    (events : List Event) : List (Option Event × List Action) :=
  let r := runHandler (getRoute env raw o) (Session.fresh dirExists)
  (none, r.1) :: runEvents env r.2 events

/-- All effects of a session, in order. -/
def sessionTrace (segments : List (Option Event × List Action)) : List Action :=
  (segments.map Prod.snd).flatten

/-- Whether an effect is an HTTP response. -/
def isRespond : Action → Bool
  | Action.respond _ _ => true
  | _ => false

/-- Whether an effect is a `delay`. -/
def isDelay : Action → Bool
  | Action.delay _ => true
  | _ => false

/-- Whether an effect is a `sendMessage`. -/
def isSend : Action → Bool
  | Action.sendMessage _ _ => true
  | _ => false

/-- Whether an effect is a `200 { code }` response. -/
def isCodeResponse : Action → Bool
  | Action.respond 200 (Body.code _) => true
  | _ => false

/-- Whether an effect is a call of the uploader. -/
def isUpload : Action → Bool
  | Action.upload _ _ => true
  | _ => false

/-- Whether an effect is a call of `requestPairingCode`. -/
def isPairingRequest : Action → Bool
  | Action.requestPairingCode _ => true
  | _ => false

/-- Every effect a computation appends to the trace satisfies `P`. -/
def Emits (P : Action → Prop) {α : Type} (m : Js α) : Prop :=
  ∀ s, ∃ l, (m s).2.trace = s.trace ++ l ∧ ∀ a ∈ l, P a

/-! ## Sample inputs -/

/-- A process environment with every optional variable unset. -/
def sampleEnv : ProcessEnv :=
  { sessionDir := "/srv/session", BOT_NAME := none, BRAND_IMAGE_URL := none,
    PM2_APP_NAME := none, PM2_APP_NAME_FALLBACK := none }

/-- Every external call of the request phase resolves, the client is unregistered. -/
def sampleSetup : SetupOutcome :=
  { authState := true, socket := true, registered := false,
    pairingCode := some "ABCD-1234", rmOk := true }

/-- Every external call of the delivery resolves. -/
def sampleDelivery : DeliveryOutcome :=
  { userJid := some "94771234567@s.whatsapp.net", credsPresent := true,
    megaId := "AbCdEf1234", megaUrl := some "https://mega.nz/file/XYZ123",
    sendImage := true, sendSession := true, sendWarning := true, rmOk := true }

/-- The state of a session that awaits the link: both listeners subscribed. -/
def sampleAwaiting : Session :=
  { headersSent := true, stopReconnect := false, credsHandler := true,
    connHandler := true, sessionDir := true, trace := [] }

/-! ## Lemmas on the monad -/

theorem bind_run {α β : Type} (m : Js α) (f : α → Js β) (s : Session) :
    (m >>= f) s = Js.bind m f s := rfl

theorem pure_run {α : Type} (a : α) (s : Session) :
    (pure a : Js α) s = (Completion.ok a, s) := rfl

theorem Emits.pure (P : Action → Prop) {α : Type} (a : α) : Emits P (pure a : Js α) :=
  fun s => ⟨[], by simp [pure_run], by simp⟩

theorem Emits.getSession (P : Action → Prop) : Emits P getSession :=
  fun s => ⟨[], by simp [Pair.getSession], by simp⟩

theorem Emits.throwJs (P : Action → Prop) {α : Type} (e : String) :
    Emits P (throwJs e : Js α) :=
  fun s => ⟨[], by simp [Pair.throwJs], by simp⟩

theorem Emits.emit {P : Action → Prop} {a : Action} (h : P a) : Emits P (emit a) :=
  fun s => ⟨[a], by simp [Pair.emit], by simpa using h⟩

theorem Emits.call {P : Action → Prop} {α : Type} {a : Action} (h : P a)
    (o : Option α) (e : String) : Emits P (call a o e) := by
  intro s
  refine ⟨[a], ?_, by simpa using h⟩
  cases o <;> simp [Pair.call]

theorem Emits.bind {P : Action → Prop} {α β : Type} {m : Js α} {f : α → Js β}
    (hm : Emits P m) (hf : ∀ a, Emits P (f a)) : Emits P (m >>= f) := by
  intro s
  obtain ⟨l1, h1, p1⟩ := hm s
  rw [bind_run]
  unfold Js.bind
  rcases hms : m s with ⟨c, s1⟩
  rw [hms] at h1
  cases c with
  | ok a =>
    obtain ⟨l2, h2, p2⟩ := hf a s1
    refine ⟨l1 ++ l2, ?_, ?_⟩
    · simp only [h2]; simp at h1; rw [h1, List.append_assoc]
    · intro x hx
      rcases List.mem_append.mp hx with hx | hx
      · exact p1 x hx
      · exact p2 x hx
  | thrown e => exact ⟨l1, h1, p1⟩

theorem Emits.tryCatch {P : Action → Prop} {body : Js Unit} {handler : String → Js Unit}
    (hb : Emits P body) (hh : ∀ e, Emits P (handler e)) : Emits P (tryCatch body handler) := by
  intro s
  obtain ⟨l1, h1, p1⟩ := hb s
  unfold Pair.tryCatch
  rcases hms : body s with ⟨c, s1⟩
  rw [hms] at h1
  cases c with
  | ok a => exact ⟨l1, h1, p1⟩
  | thrown e =>
    obtain ⟨l2, h2, p2⟩ := hh e s1
    refine ⟨l1 ++ l2, ?_, ?_⟩
    · simp only [h2]; simp at h1; rw [h1, List.append_assoc]
    · intro x hx
      rcases List.mem_append.mp hx with hx | hx
      · exact p1 x hx
      · exact p2 x hx

theorem Emits.tryFinally {P : Action → Prop} {body fin : Js Unit}
    (hb : Emits P body) (hf : Emits P fin) : Emits P (tryFinally body fin) := by
  intro s
  obtain ⟨l1, h1, p1⟩ := hb s
  unfold Pair.tryFinally
  rcases hms : body s with ⟨c, s1⟩
  rw [hms] at h1
  obtain ⟨l2, h2, p2⟩ := hf s1
  refine ⟨l1 ++ l2, ?_, ?_⟩
  · simp only
    rcases hfs : fin s1 with ⟨c2, s2⟩
    rw [hfs] at h2
    simp at h1 h2
    cases c2 <;> simp [h2, h1]
  · intro x hx
    rcases List.mem_append.mp hx with hx | hx
    · exact p1 x hx
    · exact p2 x hx

theorem Emits.ite {P : Action → Prop} {α : Type} {c : Prop} [Decidable c] {m1 m2 : Js α}
    (h1 : Emits P m1) (h2 : Emits P m2) : Emits P (if c then m1 else m2) := by
  split
  · exact h1
  · exact h2

/-! ## Lemmas on the string helpers -/

theorem replaceAllClass_nil (cls : Char → Bool) (l : List Char) :
    replaceAllClass cls [] l = l.filter (fun c => !cls c) := by
  induction l with
  | nil => rfl
  | cons c cs ih =>
    by_cases h : cls c = true
    · simp [replaceAllClass, h, ih]
    · simp [replaceAllClass, h, ih]

theorem sanitizeNumber_str (s : String) :
    (sanitizeNumber (JsValue.str s)).data =
      s.data.filter (fun c => decide ('0' ≤ c ∧ c ≤ '9')) := by
  simp only [sanitizeNumber, replaceAllClass_nil]
  congr 1
  funext c
  simp [notDigit]

theorem replaceFirst_of_isPrefixOf (pat rep rest : List Char) :
    replaceFirst pat rep (pat ++ rest) = rep ++ rest := by
  cases h : pat ++ rest with
  | nil =>
    have hp : pat = [] := (List.append_eq_nil.mp h).1
    have hr : rest = [] := (List.append_eq_nil.mp h).2
    subst hp; subst hr
    simp [replaceFirst]
  | cons c cs =>
    have hpre : pat.isPrefixOf (c :: cs) = true := by
      rw [← h]; simp
    have hdrop : (c :: cs).drop pat.length = rest := by
      rw [← h]; simp
    simp only [replaceFirst, hpre, if_true, hdrop]

theorem replaceFirst_absent (pat rep : List Char) (l : List Char) (h : ¬ pat <:+: l) :
    replaceFirst pat rep l = l := by
  induction l with
  | nil =>
    have : pat ≠ [] := by
      intro hp; apply h; subst hp; exact List.nil_infix
    cases pat with
    | nil => exact absurd rfl this
    | cons p ps => simp [replaceFirst]
  | cons c cs ih =>
    have hpre : pat.isPrefixOf (c :: cs) = false := by
      by_contra hc
      have hc2 : pat.isPrefixOf (c :: cs) = true := by simpa using hc
      exact h (List.isPrefixOf_iff_prefix.mp hc2).isInfix
    have hcs : ¬ pat <:+: cs := by
      intro hin
      apply h
      obtain ⟨a, b, hab⟩ := hin
      exact ⟨c :: a, b, by simp [← hab]⟩
    simp only [replaceFirst, hpre, ih hcs]
    simp

/-! ## Lemmas on the handlers -/

theorem respond_emits {P : Action → Prop} {st : Nat} {b : Body}
    (h : P (Action.respond st b)) : Emits P (respond st b) :=
  fun s => ⟨[Action.respond st b], by simp [respond], by simpa using h⟩

theorem rm_emits {P : Action → Prop} {p : String} (h : P (Action.removePath p))
    (ok : Bool) : Emits P (rm p ok) := by
  intro s
  refine ⟨[Action.removePath p], ?_, by simpa using h⟩
  cases ok <;> simp [rm]

theorem removePath_emits {P : Action → Prop} {p : String} (h : P (Action.removePath p))
    (hl : P (Action.log Level.warn "Failed to remove path")) (ok : Bool) :
    Emits P (removePath p ok) :=
  Emits.tryCatch (rm_emits h ok) (fun _ => Emits.emit hl)

theorem assignStopReconnect_emits {P : Action → Prop} {v : Bool}
    (h : P (Action.assignStopReconnect v)) : Emits P (assignStopReconnect v) :=
  fun s => ⟨[Action.assignStopReconnect v], by simp [assignStopReconnect], by simpa using h⟩

/-- The listener of `connection.update` writes no HTTP response. -/
theorem connectionUpdate_no_response (env : ProcessEnv) (u : ConnectionUpdate)
    (o : DeliveryOutcome) : Emits (fun a => isRespond a = false) (connectionUpdate env u o) := by
  unfold connectionUpdate deliver deliveryFailed cleanup uploadSessionToMega
  repeat' (first
    | exact Emits.pure _ _
    | exact Emits.getSession _
    | exact Emits.throwJs _ _
    | exact Emits.emit (by rfl)
    | exact Emits.call (by rfl) _ _
    | exact assignStopReconnect_emits (by rfl)
    | exact removePath_emits (by rfl) (by rfl) _
    | refine Emits.bind ?_ (fun _ => ?_)
    | refine Emits.tryCatch ?_ (fun _ => ?_)
    | refine Emits.tryFinally ?_ ?_
    | refine Emits.ite ?_ ?_)

theorem runHandler_of_emits {P : Action → Prop} {m : Js Unit} (h : Emits P m) (s : Session) :
    ∀ a ∈ (runHandler m s).1, P a := by
  obtain ⟨l, hl, hp⟩ := h { s with trace := [] }
  intro a ha
  simp only [runHandler] at ha
  rw [hl] at ha
  exact hp a (by simpa using ha)

theorem dispatch_no_response (env : ProcessEnv) (e : Event) :
    Emits (fun a => isRespond a = false) (dispatch env e) := by
  unfold dispatch
  refine Emits.bind (Emits.getSession _) (fun s => ?_)
  cases e with
  | credsUpdate => exact Emits.ite (Emits.emit (by rfl)) (Emits.pure _ _)
  | connection u o => exact Emits.ite (connectionUpdate_no_response env u o) (Emits.pure _ _)

theorem runEvents_no_response (env : ProcessEnv) (events : List Event) :
    ∀ s, ∀ seg ∈ runEvents env s events, ∀ a ∈ seg.2, isRespond a = false := by
  induction events with
  | nil => intro s seg hseg; simp [runEvents] at hseg
  | cons e es ih =>
    intro s seg hseg a ha
    simp only [runEvents, List.mem_cons] at hseg
    rcases hseg with rfl | hseg
    · exact runHandler_of_emits (dispatch_no_response env e) s a ha
    · exact ih _ seg hseg a ha

theorem isCodeResponse_le (a : Action) (h : isRespond a = false) : isCodeResponse a = false := by
  cases a <;> simp_all [isRespond, isCodeResponse]

theorem getRoute_code_count (env : ProcessEnv) (d : Bool) (raw : JsValue) (o : SetupOutcome)
    (h : sanitizeNumber raw ≠ "") :
    (runHandler (getRoute env raw o) (Session.fresh d)).1.countP isCodeResponse =
      if o.authState = true ∧ o.socket = true ∧ o.registered = false ∧ o.pairingCode.isSome = true
      then 1 else 0 := by
  rcases o with ⟨a, so, r, pc, rmOk⟩
  simp only [runHandler, getRoute, h, if_false]
  cases a <;> cases so <;> cases r <;> cases pc <;> cases rmOk <;>
    cases hT : truthy env.PM2_APP_NAME_FALLBACK <;>
    simp [setup, setupFailed, tryCatch, bind_run, Js.bind, pure_run, emit, call, unitOutcome,
      useMultiFileAuthState, respond, removePath, rm, getSession, subscribeCreds,
      subscribeConnection, Session.fresh, hT, isCodeResponse, List.countP_cons, List.countP_nil]

theorem sanitizeNumber_eq_empty (raw : JsValue)
    (h : ∀ s, raw = JsValue.str s → ∀ c ∈ s.data, ¬ ('0' ≤ c ∧ c ≤ '9')) :
    sanitizeNumber raw = "" := by
  cases raw with
  | str s =>
    have hd := sanitizeNumber_str s
    have hnil : s.data.filter (fun c => decide ('0' ≤ c ∧ c ≤ '9')) = [] := by
      rw [List.filter_eq_nil_iff]
      intro c hc
      simpa using h s rfl c hc
    rw [hnil] at hd
    exact String.ext hd
  | _ => rfl

/-! ## C1 -/

/-- C1: when `req.query.number` is not a string, or is a string without any character in
`0`..`9`, the route writes the 400 response with the fixed error body and does nothing
else: the response is the only effect, no listener is subscribed and the session
directory is not touched. -/
theorem getRoute_rejects_without_digits (env : ProcessEnv) (d : Bool) (raw : JsValue)
    (o : SetupOutcome)
    (h : ∀ s, raw = JsValue.str s → ∀ c ∈ s.data, ¬ ('0' ≤ c ∧ c ≤ '9')) :
    runHandler (getRoute env raw o) (Session.fresh d) =
      ([Action.respond 400
          (Body.error "Query param \x27number\x27 is required (digits only).")],
        { headersSent := true, stopReconnect := false, credsHandler := false,
          connHandler := false, sessionDir := d,
          trace := [Action.respond 400
            (Body.error "Query param \x27number\x27 is required (digits only).")] }) := by
  have hn := sanitizeNumber_eq_empty raw h
  simp [runHandler, getRoute, hn, respond, Session.fresh]

/-- Witness of C1 at `number=abc`. -/
theorem getRoute_rejects_without_digits_witness :
    (∀ s, JsValue.str "abc" = JsValue.str s → ∀ c ∈ s.data, ¬ ('0' ≤ c ∧ c ≤ '9')) ∧
    runHandler (getRoute sampleEnv (JsValue.str "abc") sampleSetup) (Session.fresh false) =
      ([Action.respond 400
          (Body.error "Query param \x27number\x27 is required (digits only).")],
        { headersSent := true, stopReconnect := false, credsHandler := false,
          connHandler := false, sessionDir := false,
          trace := [Action.respond 400
            (Body.error "Query param \x27number\x27 is required (digits only).")] }) :=
  ⟨by intro s hs; cases hs; decide,
   getRoute_rejects_without_digits sampleEnv false (JsValue.str "abc") sampleSetup
    (by intro s hs; cases hs; decide)⟩

/-! ## C2 -/

/-- C2, counterexample: with a valid number and a client that reports `registered`, the
session writes no `200 { code }` response at all, so the count is not one. -/
theorem code_response_count_registered :
    sanitizeNumber (JsValue.str "94771234567") = "94771234567" ∧
    (sessionTrace (runSession sampleEnv false (JsValue.str "94771234567")
      { sampleSetup with registered := true }
      [Event.connection { connection := some "open", statusCode := JsValue.undefined }
        sampleDelivery])).countP isCodeResponse = 0 := by
  decide

/-- C2, amended: for a valid number, whatever the client does and whatever events follow,
the session writes at most one `200 { code }` response: exactly one when
`useMultiFileAuthState` and `createSocket` resolve, the client is not registered and
`requestPairingCode` resolves, and none otherwise; no event adds a response. -/
theorem code_response_count (env : ProcessEnv) (d : Bool) (raw : JsValue) (o : SetupOutcome)
    (events : List Event) (h : sanitizeNumber raw ≠ "") :
    (sessionTrace (runSession env d raw o events)).countP isCodeResponse =
      (if o.authState = true ∧ o.socket = true ∧ o.registered = false ∧
          o.pairingCode.isSome = true then 1 else 0) ∧
    ∀ seg ∈ runSession env d raw o events, seg.1 ≠ none → ∀ a ∈ seg.2, isRespond a = false := by
  constructor
  · simp only [sessionTrace, runSession, List.map_cons, List.flatten_cons, List.countP_append]
    rw [getRoute_code_count env d raw o h]
    have hz : List.countP isCodeResponse
        (List.map Prod.snd (runEvents env (runHandler (getRoute env raw o) (Session.fresh d)).2
          events)).flatten = 0 := by
      rw [List.countP_eq_zero]
      intro a ha
      simp only [List.mem_flatten, List.mem_map] at ha
      obtain ⟨l, ⟨seg, hseg, rfl⟩, hal⟩ := ha
      simp [isCodeResponse_le a (runEvents_no_response env events _ seg hseg a hal)]
    rw [hz]
    simp
  · intro seg hseg hne a ha
    simp only [runSession, List.mem_cons] at hseg
    rcases hseg with rfl | hseg
    · exact absurd rfl hne
    · exact runEvents_no_response env events _ seg hseg a ha

/-- Witness of amended C2 at the scenario of the specification. -/
theorem code_response_count_witness :
    sanitizeNumber (JsValue.str "94771234567") ≠ "" ∧
    (sessionTrace (runSession sampleEnv false (JsValue.str "94771234567") sampleSetup
      [Event.credsUpdate])).countP isCodeResponse = 1 :=
  ⟨by decide,
   (code_response_count sampleEnv false (JsValue.str "94771234567") sampleSetup
      [Event.credsUpdate] (by decide)).1⟩

theorem tryCatch_ok (body : Js Unit) (handler : String → Js Unit)
    (hh : ∀ e s, (handler e s).1 = Completion.ok ()) (s : Session) :
    (tryCatch body handler s).1 = Completion.ok () := by
  unfold tryCatch
  rcases hb : body s with ⟨c, s1⟩
  cases c with
  | ok a => rfl
  | thrown e => exact hh e s1

theorem deliveryFailed_ok (env : ProcessEnv) (s : Session) :
    (deliveryFailed env s).1 = Completion.ok () := by
  unfold deliveryFailed
  cases hT : truthy env.PM2_APP_NAME <;> simp [bind_run, Js.bind, emit, pure_run]

theorem cleanup_run (env : ProcessEnv) (o : DeliveryOutcome) (s : Session) :
    cleanup env o s = (Completion.ok (),
      { s with
        stopReconnect := true
        sessionDir := if o.rmOk = true then false else s.sessionDir
        trace := s.trace ++ ([Action.assignStopReconnect true, Action.delay 100,
          Action.removePath (SESSION_DIR env)] ++
          if o.rmOk = true then [] else [Action.log Level.warn "Failed to remove path"]) }) := by
  cases h : o.rmOk <;>
    simp [cleanup, bind_run, Js.bind, assignStopReconnect, emit, removePath, tryCatch, rm, h]

theorem emits_true {α : Type} (m : Js α) (h : Emits (fun _ => True) m) (s : Session) :
    ∃ l, (m s).2.trace = s.trace ++ l := by
  obtain ⟨l, hl, _⟩ := h s
  exact ⟨l, hl⟩

theorem attempt_emits (env : ProcessEnv) (o : DeliveryOutcome) :
    Emits (fun _ => True) (tryCatch (deliver env o) (fun _ => deliveryFailed env)) := by
  unfold deliver deliveryFailed uploadSessionToMega
  repeat' (first
    | exact Emits.pure _ _
    | exact Emits.throwJs _ _
    | exact Emits.emit trivial
    | exact Emits.call trivial _ _
    | refine Emits.bind ?_ (fun _ => ?_)
    | refine Emits.tryCatch ?_ (fun _ => ?_)
    | refine Emits.ite ?_ ?_)

/-- The open branch, as a whole: whatever the delivery did, the `finally` block runs after
it and the close branch is skipped. -/
theorem connectionUpdate_open (env : ProcessEnv) (u : ConnectionUpdate) (o : DeliveryOutcome)
    (s : Session) (hc : u.connection = some "open") :
    ∃ pre, connectionUpdate env u o s = (Completion.ok (),
      { (tryCatch (deliver env o) (fun _ => deliveryFailed env) s).2 with
        stopReconnect := true
        sessionDir := if o.rmOk = true then false
          else (tryCatch (deliver env o) (fun _ => deliveryFailed env) s).2.sessionDir
        trace := s.trace ++ pre ++ ([Action.assignStopReconnect true, Action.delay 100,
          Action.removePath (SESSION_DIR env)] ++
          if o.rmOk = true then [] else [Action.log Level.warn "Failed to remove path"]) }) := by
  obtain ⟨pre, hpre⟩ := emits_true _ (attempt_emits env o) s
  refine ⟨pre, ?_⟩
  have hok := tryCatch_ok (deliver env o) (fun _ => deliveryFailed env)
    (fun _ s => deliveryFailed_ok env s) s
  rcases hb : tryCatch (deliver env o) (fun _ => deliveryFailed env) s with ⟨c, s1⟩
  rw [hb] at hpre hok
  simp only at hpre hok
  subst hok
  simp [connectionUpdate, hc, bind_run, Js.bind, tryFinally, hb, cleanup_run, getSession,
    pure_run, hpre]

/-! ## C3 -/

/-- C3, counterexample: an open connection is handled, every delivery step succeeds, but
`fsp.rm` rejects; `removePath` swallows the error and the session directory still exists
when the handler has completed. -/
theorem open_branch_rm_rejected :
    (runHandler (connectionUpdate sampleEnv
        { connection := some "open", statusCode := JsValue.undefined }
        { sampleDelivery with rmOk := false }) sampleAwaiting).2.sessionDir = true ∧
    (connectionUpdate sampleEnv
        { connection := some "open", statusCode := JsValue.undefined }
        { sampleDelivery with rmOk := false } sampleAwaiting).1 = Completion.ok () := by
  decide

/-- C3, amended: for every `connection.update` event with `connection = "open"` and every
outcome of the delivery steps, the handler completes normally and finishes by assigning
`stopReconnect = true`, waiting 100 ms and calling `removePath` on the session directory;
when the removal succeeds the directory no longer exists afterwards, and when it fails
the only further effect is the warning logged by `removePath`. -/
theorem open_branch_cleanup (env : ProcessEnv) (u : ConnectionUpdate) (o : DeliveryOutcome)
    (s : Session) (hc : u.connection = some "open") :
    (connectionUpdate env u o { s with trace := [] }).1 = Completion.ok () ∧
    (runHandler (connectionUpdate env u o) s).2.stopReconnect = true ∧
    (∃ pre, (runHandler (connectionUpdate env u o) s).1 =
      pre ++ ([Action.assignStopReconnect true, Action.delay 100,
        Action.removePath (SESSION_DIR env)] ++
        if o.rmOk = true then [] else [Action.log Level.warn "Failed to remove path"])) ∧
    (o.rmOk = true → (runHandler (connectionUpdate env u o) s).2.sessionDir = false) := by
  obtain ⟨pre, hpre⟩ := connectionUpdate_open env u o { s with trace := [] } hc
  simp only [runHandler, hpre]
  refine ⟨trivial, trivial, ⟨pre, by simp⟩, ?_⟩
  intro h
  simp [h]

/-- Witness of amended C3: the upload rejects, the cleanup still runs. -/
theorem open_branch_cleanup_witness :
    (some "open" : Option String) = some "open" ∧
    (runHandler (connectionUpdate sampleEnv
        { connection := some "open", statusCode := JsValue.undefined }
        { sampleDelivery with megaUrl := none }) sampleAwaiting).2.stopReconnect = true ∧
    (runHandler (connectionUpdate sampleEnv
        { connection := some "open", statusCode := JsValue.undefined }
        { sampleDelivery with megaUrl := none }) sampleAwaiting).2.sessionDir = false :=
  ⟨rfl,
   (open_branch_cleanup sampleEnv { connection := some "open", statusCode := JsValue.undefined }
      { sampleDelivery with megaUrl := none } sampleAwaiting rfl).2.1,
   (open_branch_cleanup sampleEnv { connection := some "open", statusCode := JsValue.undefined }
      { sampleDelivery with megaUrl := none } sampleAwaiting rfl).2.2.2 rfl⟩

/-! ## C4 -/

theorem connectionUpdate_close (env : ProcessEnv) (u : ConnectionUpdate) (o : DeliveryOutcome)
    (s : Session) (hc : u.connection = some "close") (hs : s.stopReconnect = false) :
    (runHandler (connectionUpdate env u o) s).1 =
      if u.statusCode = JsValue.num 401 then
        [Action.log Level.error "Unauthorized (401) during connection; not retrying"]
      else [Action.log Level.warn "Connection closed; retrying in 10s", Action.delay 10000] := by
  simp [runHandler, connectionUpdate, hc, hs, bind_run, Js.bind, getSession, pure_run]
  split <;> rfl

/-- C4: a `connection.update` event with `connection = "close"` handled while
`stopReconnect` is false performs no delay when the status code is 401 and exactly one
delay, of 10000 ms, for any other status code (absent included); in neither case does it
call `requestPairingCode`, create a socket or write an HTTP response. -/
theorem close_branch_backoff (env : ProcessEnv) (u : ConnectionUpdate) (o : DeliveryOutcome)
    (s : Session) (hc : u.connection = some "close") (hs : s.stopReconnect = false) :
    (u.statusCode = JsValue.num 401 →
      (runHandler (connectionUpdate env u o) s).1.filter isDelay = []) ∧
    (u.statusCode ≠ JsValue.num 401 →
      (runHandler (connectionUpdate env u o) s).1.filter isDelay = [Action.delay 10000]) ∧
    (∀ a ∈ (runHandler (connectionUpdate env u o) s).1,
      isPairingRequest a = false ∧ a ≠ Action.createSocket ∧ isRespond a = false) := by
  rw [connectionUpdate_close env u o s hc hs]
  refine ⟨?_, ?_, ?_⟩
  · intro h; rw [if_pos h]; rfl
  · intro h; rw [if_neg h]; rfl
  · intro a ha
    split at ha <;> simp at ha <;> rcases ha with rfl | rfl <;>
      simp [isPairingRequest, isRespond]

/-- Witness of C4: a close event without status code, and the resulting single delay. -/
theorem close_branch_backoff_witness :
    (some "close" : Option String) = some "close" ∧ sampleAwaiting.stopReconnect = false ∧
    (runHandler (connectionUpdate sampleEnv
        { connection := some "close", statusCode := JsValue.undefined } sampleDelivery)
      sampleAwaiting).1.filter isDelay = [Action.delay 10000] :=
  ⟨rfl, rfl,
   (close_branch_backoff sampleEnv { connection := some "close", statusCode := JsValue.undefined }
      sampleDelivery sampleAwaiting rfl rfl).2.1 (by decide)⟩

/-! ## C8 -/

/-- C8, the code at the failing input: a close event with status code 401, handled while
`stopReconnect` is false, only logs the error; `removePath` is not called and the session
directory still exists afterwards. -/
theorem unauthorized_close_keeps_session :
    runHandler (connectionUpdate sampleEnv
        { connection := some "close", statusCode := JsValue.num 401 } sampleDelivery)
      sampleAwaiting =
      ([Action.log Level.error "Unauthorized (401) during connection; not retrying"],
        { sampleAwaiting with
          trace := [Action.log Level.error
            "Unauthorized (401) during connection; not retrying"] }) ∧
    (runHandler (connectionUpdate sampleEnv
        { connection := some "close", statusCode := JsValue.num 401 } sampleDelivery)
      sampleAwaiting).2.sessionDir = true := by
  decide

/-! ## C5 -/

/-- C5, counterexample: for a locator that does not start with the fixed URL but contains
it further on, the claim's "unchanged" does not hold of the unanchored `replace`. -/
theorem stripMegaUrl_inner_occurrence :
    ¬ megaFileUrl.data <+: "see https://mega.nz/file/XYZ123".data ∧
    stripMegaUrl "see https://mega.nz/file/XYZ123" ≠ "see https://mega.nz/file/XYZ123" := by
  decide

/-- C5, amended: the display transform strips the fixed URL prefix
`https://mega.nz/file/`: a locator that starts with it is returned with that leading prefix
removed, and a locator that does not contain the fixed string is returned unchanged. -/
theorem stripMegaUrl_leading_url (L : String) :
    (∀ rest, L.data = megaFileUrl.data ++ rest → (stripMegaUrl L).data = rest) ∧
    (¬ megaFileUrl.data <:+: L.data → stripMegaUrl L = L) := by
  refine ⟨?_, ?_⟩
  · intro rest h
    simp only [stripMegaUrl, h]
    simpa using replaceFirst_of_isPrefixOf megaFileUrl.data [] rest
  · intro h
    apply String.ext
    simp only [stripMegaUrl]
    exact replaceFirst_absent megaFileUrl.data [] L.data h

/-- Witness of amended C5: the locator of the scenario gives `XYZ123`, and a locator
without the fixed string is returned as it is. -/
theorem stripMegaUrl_leading_url_witness :
    "https://mega.nz/file/XYZ123".data = megaFileUrl.data ++ "XYZ123".data ∧
    (stripMegaUrl "https://mega.nz/file/XYZ123").data = "XYZ123".data ∧
    ¬ megaFileUrl.data <:+: "XYZ123".data ∧
    stripMegaUrl "XYZ123" = "XYZ123" :=
  ⟨by decide,
   (stripMegaUrl_leading_url "https://mega.nz/file/XYZ123").1 "XYZ123".data (by decide),
   by decide,
   (stripMegaUrl_leading_url "XYZ123").2 (by decide)⟩

/-! ## C6 -/

/-- C6, counterexample: in the scenario of the specification the second message carries
the shortened session string `XYZ123`; no message carries the locator
`https://mega.nz/file/XYZ123` the uploader returned. -/
theorem second_message_is_shortened :
    sampleDelivery.megaUrl = some "https://mega.nz/file/XYZ123" ∧
    ((runHandler (connectionUpdate sampleEnv
        { connection := some "open", statusCode := JsValue.undefined } sampleDelivery)
      sampleAwaiting).1.filter isSend).get? 1 =
      some (Action.sendMessage "94771234567@s.whatsapp.net" (Content.text "XYZ123")) ∧
    Action.sendMessage "94771234567@s.whatsapp.net"
        (Content.text "https://mega.nz/file/XYZ123") ∉
      (runHandler (connectionUpdate sampleEnv
        { connection := some "open", statusCode := JsValue.undefined } sampleDelivery)
      sampleAwaiting).1 := by
  decide

theorem captionOf_embeds (env : ProcessEnv) (stringSession : String) :
    stringSession.data <:+: (captionOf env stringSession).data := by
  refine ⟨("*" ++ BOT_NAME env ++ "*\n\nðŸ‘‰ ").data,
    (" ðŸ‘ˆ\n\n*This is your Session ID*\n\n> " ++ BOT_NAME env).data, ?_⟩
  simp [captionOf, String.data_append]

/-- C6, amended: when an open connection is handled and the upload and all sends succeed,
exactly three messages are sent, all to the normalized identity of the linked account and
in this order: the image whose caption embeds the shortened locator, a plaintext message
whose text is that same shortened locator, and the plaintext warning. -/
theorem open_branch_messages (env : ProcessEnv) (u : ConnectionUpdate) (o : DeliveryOutcome)
    (s : Session) (jid url : String) (hc : u.connection = some "open")
    (hj : o.userJid = some jid) (hp : o.credsPresent = true) (hu : o.megaUrl = some url)
    (h1 : o.sendImage = true) (h2 : o.sendSession = true) (h3 : o.sendWarning = true) :
    (runHandler (connectionUpdate env u o) s).1.filter isSend =
      [Action.sendMessage jid
          (Content.image (BRAND_IMAGE_URL env) (captionOf env (stripMegaUrl url))),
        Action.sendMessage jid (Content.text (stripMegaUrl url)),
        Action.sendMessage jid (Content.text warningText)] ∧
    (stripMegaUrl url).data <:+: (captionOf env (stripMegaUrl url)).data := by
  refine ⟨?_, captionOf_embeds env _⟩
  rcases o with ⟨uj, cp, mid, mu, s1, s2, s3, rmOk⟩
  simp only at hj hp hu h1 h2 h3
  subst hj hp hu h1 h2 h3
  cases rmOk <;>
    simp [runHandler, connectionUpdate, hc, bind_run, Js.bind, pure_run, tryFinally, tryCatch,
      deliver, uploadSessionToMega, cleanup, assignStopReconnect, removePath, rm, emit, call,
      unitOutcome, getSession, isSend]

/-- Witness of amended C6 at the scenario of the specification. -/
theorem open_branch_messages_witness :
    sampleDelivery.userJid = some "94771234567@s.whatsapp.net" ∧
    sampleDelivery.megaUrl = some "https://mega.nz/file/XYZ123" ∧
    (runHandler (connectionUpdate sampleEnv
        { connection := some "open", statusCode := JsValue.undefined } sampleDelivery)
      sampleAwaiting).1.filter isSend =
      [Action.sendMessage "94771234567@s.whatsapp.net"
          (Content.image (BRAND_IMAGE_URL sampleEnv)
            (captionOf sampleEnv (stripMegaUrl "https://mega.nz/file/XYZ123"))),
        Action.sendMessage "94771234567@s.whatsapp.net"
          (Content.text (stripMegaUrl "https://mega.nz/file/XYZ123")),
        Action.sendMessage "94771234567@s.whatsapp.net" (Content.text warningText)] :=
  ⟨rfl, rfl,
   (open_branch_messages sampleEnv { connection := some "open", statusCode := JsValue.undefined }
      sampleDelivery sampleAwaiting "94771234567@s.whatsapp.net" "https://mega.nz/file/XYZ123"
      rfl rfl rfl rfl rfl rfl rfl).1⟩

/-! ## C7 -/

/-- C7, counterexample: `requestPairingCode` throws and `fsp.rm` rejects; the route
answers 503 and calls `removePath`, but the session directory created by
`useMultiFileAuthState` still exists afterwards. -/
theorem setup_failure_rm_rejected :
    sanitizeNumber (JsValue.str "94771234567") ≠ "" ∧
    (runHandler (getRoute sampleEnv (JsValue.str "94771234567")
        { sampleSetup with pairingCode := none, rmOk := false })
      (Session.fresh false)).1.filter isRespond =
      [Action.respond 503 (Body.error "Service Unavailable")] ∧
    (runHandler (getRoute sampleEnv (JsValue.str "94771234567")
        { sampleSetup with pairingCode := none, rmOk := false })
      (Session.fresh false)).2.sessionDir = true := by
  decide

theorem setupFailed_run (env : ProcessEnv) (o : SetupOutcome) (s : Session)
    (hs : s.headersSent = false) :
    setupFailed env o s = (Completion.ok (),
      { s with
        headersSent := true
        sessionDir := if o.rmOk = true then false else s.sessionDir
        trace := s.trace ++ (Action.log Level.error "Pair route error" ::
          ((if truthy env.PM2_APP_NAME_FALLBACK = true then
              [Action.exec ("pm2 restart " ++ env.PM2_APP_NAME_FALLBACK.getD "")] else []) ++
            (Action.removePath (SESSION_DIR env) ::
              ((if o.rmOk = true then [] else [Action.log Level.warn "Failed to remove path"]) ++
                [Action.respond 503 (Body.error "Service Unavailable")])))) }) := by
  cases hr : o.rmOk <;> cases hT : truthy env.PM2_APP_NAME_FALLBACK <;>
    simp [setupFailed, bind_run, Js.bind, pure_run, emit, removePath, tryCatch, rm, getSession,
      respond, hs, hr, hT]

theorem setup_throws (env : ProcessEnv) (number : String) (o : SetupOutcome) (s : Session)
    (hf : o.authState = false ∨ o.socket = false ∨
      (o.registered = false ∧ o.pairingCode = none)) :
    ∃ e pre, setup env number o s = (Completion.thrown e,
        { s with
          sessionDir := if o.authState = true then true else s.sessionDir
          trace := s.trace ++ pre }) ∧
      ∀ a ∈ pre, isRespond a = false ∧ a ≠ Action.onCredsUpdate ∧
        a ≠ Action.onConnectionUpdate := by
  rcases o with ⟨a, so, r, pc, rmOk⟩
  simp only at hf
  cases a
  · exact ⟨"auth state failed", [Action.useMultiFileAuthState (SESSION_DIR env)],
      by simp [setup, bind_run, Js.bind, useMultiFileAuthState], by simp [isRespond]⟩
  · cases so
    · exact ⟨"socket failed", [Action.useMultiFileAuthState (SESSION_DIR env),
          Action.createSocket],
        by simp [setup, bind_run, Js.bind, useMultiFileAuthState, call, unitOutcome],
        by simp [isRespond]⟩
    · have h3 : r = false ∧ pc = none := by simpa using hf
      obtain ⟨rfl, rfl⟩ := h3
      exact ⟨"pairing failed", [Action.useMultiFileAuthState (SESSION_DIR env),
          Action.createSocket, Action.delay 1500, Action.requestPairingCode number],
        by simp [setup, bind_run, Js.bind, useMultiFileAuthState, call, unitOutcome, emit],
        by simp [isRespond]⟩

/-- C7, amended: for a valid number, when `useMultiFileAuthState`, `createSocket` or
`requestPairingCode` throws, the route writes the 503 response with the body
`Service Unavailable` and nothing else, calls `removePath` on the session directory and
subscribes neither listener; when the removal succeeds the session directory no longer
exists afterwards. -/
theorem setup_failure_response (env : ProcessEnv) (d : Bool) (raw : JsValue)
    (o : SetupOutcome) (h : sanitizeNumber raw ≠ "")
    (hf : o.authState = false ∨ o.socket = false ∨
      (o.registered = false ∧ o.pairingCode = none)) :
    (runHandler (getRoute env raw o) (Session.fresh d)).1.filter isRespond =
      [Action.respond 503 (Body.error "Service Unavailable")] ∧
    Action.removePath (SESSION_DIR env) ∈ (runHandler (getRoute env raw o) (Session.fresh d)).1 ∧
    Action.onCredsUpdate ∉ (runHandler (getRoute env raw o) (Session.fresh d)).1 ∧
    Action.onConnectionUpdate ∉ (runHandler (getRoute env raw o) (Session.fresh d)).1 ∧
    (runHandler (getRoute env raw o) (Session.fresh d)).2.credsHandler = false ∧
    (runHandler (getRoute env raw o) (Session.fresh d)).2.connHandler = false ∧
    (o.rmOk = true → (runHandler (getRoute env raw o) (Session.fresh d)).2.sessionDir = false) := by
  obtain ⟨e, pre, hrun, hpre⟩ :=
    setup_throws env (sanitizeNumber raw) o { Session.fresh d with trace := [] } hf
  have hfail := setupFailed_run env o
    { Session.fresh d with
      sessionDir := if o.authState = true then true else d
      trace := [] ++ pre } rfl
  have hget : getRoute env raw o { Session.fresh d with trace := [] } =
      setupFailed env o { Session.fresh d with
        sessionDir := if o.authState = true then true else d
        trace := [] ++ pre } := by
    simp only [getRoute, h, if_false, tryCatch, hrun]
    rfl
  simp only [runHandler, hget, hfail]
  have hpre1 : pre.filter isRespond = [] := by
    rw [List.filter_eq_nil_iff]
    intro a ha
    simp [(hpre a ha).1]
  have hpre2 : Action.onCredsUpdate ∉ pre := fun hm => (hpre _ hm).2.1 rfl
  have hpre3 : Action.onConnectionUpdate ∉ pre := fun hm => (hpre _ hm).2.2 rfl
  refine ⟨?_, ?_, ?_, ?_, rfl, rfl, ?_⟩
  · cases o.rmOk <;> cases truthy env.PM2_APP_NAME_FALLBACK <;>
      simp [List.filter_append, List.filter_cons, hpre1, isRespond]
  · simp
  · cases o.rmOk <;> cases truthy env.PM2_APP_NAME_FALLBACK <;> simp [hpre2]
  · cases o.rmOk <;> cases truthy env.PM2_APP_NAME_FALLBACK <;> simp [hpre3]
  · intro hrm
    simp [hrm]

/-- Witness of amended C7: `createSocket` throws. -/
theorem setup_failure_response_witness :
    sanitizeNumber (JsValue.str "94771234567") ≠ "" ∧
    ({ sampleSetup with socket := false } : SetupOutcome).socket = false ∧
    (runHandler (getRoute sampleEnv (JsValue.str "94771234567")
        { sampleSetup with socket := false }) (Session.fresh false)).1.filter isRespond =
      [Action.respond 503 (Body.error "Service Unavailable")] :=
  ⟨by decide, rfl,
   (setup_failure_response sampleEnv false (JsValue.str "94771234567")
      { sampleSetup with socket := false } (by decide) (Or.inr (Or.inl rfl))).1⟩

/-! ## C9 -/

theorem getRoute_no_upload (env : ProcessEnv) (raw : JsValue) (o : SetupOutcome) :
    Emits (fun a => isUpload a = false) (getRoute env raw o) := by
  unfold getRoute setup setupFailed
  have hu : Emits (fun a => isUpload a = false)
      (useMultiFileAuthState (SESSION_DIR env) o.authState) := by
    intro s
    refine ⟨[Action.useMultiFileAuthState (SESSION_DIR env)], ?_, by simp [isUpload]⟩
    cases o.authState <;> simp [useMultiFileAuthState]
  have hc : Emits (fun a => isUpload a = false) subscribeCreds :=
    fun s => ⟨[Action.onCredsUpdate], by simp [subscribeCreds], by simp [isUpload]⟩
  have hn : Emits (fun a => isUpload a = false) subscribeConnection :=
    fun s => ⟨[Action.onConnectionUpdate], by simp [subscribeConnection], by simp [isUpload]⟩
  repeat' (first
    | exact hu
    | exact hc
    | exact hn
    | exact Emits.pure _ _
    | exact Emits.getSession _
    | exact Emits.emit (by rfl)
    | exact Emits.call (by rfl) _ _
    | exact respond_emits (by rfl)
    | exact removePath_emits (by rfl) (by rfl) _
    | refine Emits.bind ?_ (fun _ => ?_)
    | refine Emits.tryCatch ?_ (fun _ => ?_)
    | refine Emits.ite ?_ ?_)

theorem dispatch_upload (env : ProcessEnv) (e : Event)
    (h : ∀ u od, e = Event.connection u od → u.connection ≠ some "open") :
    Emits (fun a => isUpload a = false) (dispatch env e) := by
  unfold dispatch
  refine Emits.bind (Emits.getSession _) (fun s => ?_)
  cases e with
  | credsUpdate => exact Emits.ite (Emits.emit (by rfl)) (Emits.pure _ _)
  | connection u o =>
    refine Emits.ite ?_ (Emits.pure _ _)
    unfold connectionUpdate
    rw [if_neg (h u o rfl)]
    repeat' (first
      | exact Emits.pure _ _
      | exact Emits.getSession _
      | exact Emits.emit (by rfl)
      | refine Emits.bind ?_ (fun _ => ?_)
      | refine Emits.ite ?_ ?_)

theorem runEvents_upload (env : ProcessEnv) (events : List Event) :
    ∀ s, ∀ seg ∈ runEvents env s events, ∀ a ∈ seg.2, isUpload a = true →
      ∃ u od, seg.1 = some (Event.connection u od) ∧ u.connection = some "open" := by
  induction events with
  | nil => intro s seg hseg; simp [runEvents] at hseg
  | cons e es ih =>
    intro s seg hseg a ha hup
    simp only [runEvents, List.mem_cons] at hseg
    rcases hseg with rfl | hseg
    · by_contra hno
      have hne : ∀ u od, e = Event.connection u od → u.connection ≠ some "open" := by
        intro u od he hopen
        exact hno ⟨u, od, by simp [he], hopen⟩
      have := runHandler_of_emits (dispatch_upload env e hne) s a ha
      simp [hup] at this
    · exact ih _ seg hseg a ha hup

/-- C9: in every session (any request, then any finite sequence of `creds.update` and
`connection.update` events) the uploader is called only by the listener of a
`connection.update` event whose `connection` is `"open"`: never while the request is
handled, never on `creds.update`, never on any other connection state. -/
theorem upload_only_when_open (env : ProcessEnv) (d : Bool) (raw : JsValue) (o : SetupOutcome)
    (events : List Event) :
    ∀ seg ∈ runSession env d raw o events, ∀ a ∈ seg.2, isUpload a = true →
      ∃ u od, seg.1 = some (Event.connection u od) ∧ u.connection = some "open" := by
  intro seg hseg a ha hup
  simp only [runSession, List.mem_cons] at hseg
  rcases hseg with rfl | hseg
  · have := runHandler_of_emits (getRoute_no_upload env raw o) (Session.fresh d) a ha
    simp [hup] at this
  · exact runEvents_upload env events _ seg hseg a ha hup

/-- Witness of C9: in the scenario of the specification the upload is performed by the
listener of the open event. -/
theorem upload_only_when_open_witness :
    (some (Event.connection { connection := some "open", statusCode := JsValue.undefined }
        sampleDelivery),
      (runHandler (connectionUpdate sampleEnv
        { connection := some "open", statusCode := JsValue.undefined } sampleDelivery)
        sampleAwaiting).1) ∈
      runSession sampleEnv false (JsValue.str "94771234567") sampleSetup
        [Event.credsUpdate,
          Event.connection { connection := some "open", statusCode := JsValue.undefined }
            sampleDelivery] ∧
    Action.upload "/srv/session/creds.json" "AbCdEf1234.json" ∈
      (runHandler (connectionUpdate sampleEnv
        { connection := some "open", statusCode := JsValue.undefined } sampleDelivery)
        sampleAwaiting).1 ∧
    ∃ u od, some (Event.connection { connection := some "open", statusCode := JsValue.undefined }
        sampleDelivery) = some (Event.connection u od) ∧ u.connection = some "open" :=
  ⟨by decide, by decide,
   upload_only_when_open sampleEnv false (JsValue.str "94771234567") sampleSetup
    [Event.credsUpdate,
      Event.connection { connection := some "open", statusCode := JsValue.undefined }
        sampleDelivery]
    (some (Event.connection { connection := some "open", statusCode := JsValue.undefined }
        sampleDelivery),
      (runHandler (connectionUpdate sampleEnv
        { connection := some "open", statusCode := JsValue.undefined } sampleDelivery)
        sampleAwaiting).1)
    (by decide) (Action.upload "/srv/session/creds.json" "AbCdEf1234.json") (by decide) rfl⟩

/-! ## C10 -/

theorem getRoute_pairing_number (env : ProcessEnv) (raw : JsValue) (o : SetupOutcome) :
    Emits (fun a => ∀ n, a = Action.requestPairingCode n → n = sanitizeNumber raw)
      (getRoute env raw o) := by
  unfold getRoute setup setupFailed
  have hu : Emits (fun a => ∀ n, a = Action.requestPairingCode n → n = sanitizeNumber raw)
      (useMultiFileAuthState (SESSION_DIR env) o.authState) := by
    intro s
    refine ⟨[Action.useMultiFileAuthState (SESSION_DIR env)], ?_, by simp⟩
    cases o.authState <;> simp [useMultiFileAuthState]
  have hc : Emits (fun a => ∀ n, a = Action.requestPairingCode n → n = sanitizeNumber raw)
      subscribeCreds :=
    fun s => ⟨[Action.onCredsUpdate], by simp [subscribeCreds], by simp⟩
  have hn : Emits (fun a => ∀ n, a = Action.requestPairingCode n → n = sanitizeNumber raw)
      subscribeConnection :=
    fun s => ⟨[Action.onConnectionUpdate], by simp [subscribeConnection], by simp⟩
  repeat' (first
    | exact hu
    | exact hc
    | exact hn
    | exact Emits.pure _ _
    | exact Emits.getSession _
    | exact Emits.emit (fun n hn => by cases hn)
    | exact Emits.call (fun n hn => by cases hn <;> rfl) _ _
    | exact respond_emits (fun n hn => by cases hn)
    | exact removePath_emits (fun n hn => by cases hn) (fun n hn => by cases hn) _
    | refine Emits.bind ?_ (fun _ => ?_)
    | refine Emits.tryCatch ?_ (fun _ => ?_)
    | refine Emits.ite ?_ ?_)

theorem getRoute_requests_code (env : ProcessEnv) (d : Bool) (raw : JsValue) (o : SetupOutcome)
    (h : sanitizeNumber raw ≠ "") (ha : o.authState = true) (hs : o.socket = true)
    (hr : o.registered = false) :
    Action.requestPairingCode (sanitizeNumber raw) ∈
      (runHandler (getRoute env raw o) (Session.fresh d)).1 := by
  rcases o with ⟨a, so, r, pc, rmOk⟩
  simp only at ha hs hr
  subst ha hs hr
  simp only [runHandler, getRoute, h, if_false]
  cases pc <;> cases rmOk <;> cases hT : truthy env.PM2_APP_NAME_FALLBACK <;>
    simp [setup, setupFailed, tryCatch, bind_run, Js.bind, pure_run, emit, call, unitOutcome,
      useMultiFileAuthState, respond, removePath, rm, getSession, subscribeCreds,
      subscribeConnection, Session.fresh, hT]

/-- C10: on a string, `sanitizeNumber` returns exactly the characters of the input that
lie in `0`..`9`, in their original order; on any other value it returns the empty string;
and the sanitized value is the number passed to `requestPairingCode`: every pairing
request of the route carries it, and the route does make the request when the session is
set up and the client is not registered. -/
theorem sanitizeNumber_digits (env : ProcessEnv) (d : Bool) (raw : JsValue)
    (o : SetupOutcome) :
    (∀ s, raw = JsValue.str s →
      (sanitizeNumber raw).data = s.data.filter (fun c => decide ('0' ≤ c ∧ c ≤ '9'))) ∧
    ((∀ s, raw ≠ JsValue.str s) → sanitizeNumber raw = "") ∧
    (∀ n, Action.requestPairingCode n ∈ (runHandler (getRoute env raw o) (Session.fresh d)).1 →
      n = sanitizeNumber raw) ∧
    (sanitizeNumber raw ≠ "" → o.authState = true → o.socket = true → o.registered = false →
      Action.requestPairingCode (sanitizeNumber raw) ∈
        (runHandler (getRoute env raw o) (Session.fresh d)).1) := by
  refine ⟨?_, ?_, ?_, getRoute_requests_code env d raw o⟩
  · intro s hs
    subst hs
    exact sanitizeNumber_str s
  · intro hns
    cases raw with
    | str s => exact absurd rfl (hns s)
    | _ => rfl
  · intro n hn
    exact runHandler_of_emits (getRoute_pairing_number env raw o) (Session.fresh d) _ hn n rfl

/-- Witness of C10: a number typed with a plus sign and blanks. -/
theorem sanitizeNumber_digits_witness :
    (sanitizeNumber (JsValue.str "+94 77 123 4567")).data = "94771234567".data ∧
    sanitizeNumber (JsValue.str "+94 77 123 4567") ≠ "" ∧
    Action.requestPairingCode "94771234567" ∈
      (runHandler (getRoute sampleEnv (JsValue.str "+94 77 123 4567") sampleSetup)
        (Session.fresh false)).1 :=
  ⟨(sanitizeNumber_digits sampleEnv false (JsValue.str "+94 77 123 4567") sampleSetup).1
      "+94 77 123 4567" rfl,
   by decide,
   (sanitizeNumber_digits sampleEnv false (JsValue.str "+94 77 123 4567") sampleSetup).2.2.2
      (by decide) rfl rfl rfl⟩

end Pair
